import Mathlib

/-!
Verification of the ecommerce-microservices inventory service and its
request-instrumentation middleware.

The development shallowly embeds the two source files:
- product-inventory/inventory_api.py  (persistence, store mutation, metrics hooks)
- contact-support-team/server.py      (request instrumentation middleware)

Persisted JSON files are modelled as parsed JSON values (serialisation of the
values used here is injective and parsing inverts dumping, so identifying a
file with its parsed content is faithful).  Metric updates are modelled as
event lists so that "incremented exactly once" is a statement about event
counts.
-/

/-- Parsed JSON values, the content of the persisted inventory file. -/
inductive Json where
  | jnull : Json
  | jbool : Bool → Json
  | jnum : Int → Json
  | jstr : String → Json
  | jarr : List Json → Json
  | jobj : List (String × Json) → Json

/-- An inventory item: a JSON object with integer fields id and quantity. -/
structure InventoryItem where
  id : Int
  quantity : Int
deriving DecidableEq

/-- JSON encoding of one inventory item, as json.dump writes it. -/
def encodeItem (it : InventoryItem) : Json :=
  Json.jobj [("id", Json.jnum it.id), ("quantity", Json.jnum it.quantity)]

/-- Field lookup in a JSON object, as a Python dict subscript. -/
def jlookup (fields : List (String × Json)) (k : String) : Option Json :=
  (fields.find? (fun kv => kv.fst == k)).map (fun kv => kv.snd)

/-- Reads an item back out of its JSON object form. -/
def decodeItem (j : Json) : Option InventoryItem :=
  match j with
  | Json.jobj fs =>
      match jlookup fs "id", jlookup fs "quantity" with
      | some (Json.jnum i), some (Json.jnum q) => some { id := i, quantity := q }
      | _, _ => none
  | _ => none

/-- DEFAULT_INVENTORY from inventory_api.py lines 23-36. -/
def DEFAULT_INVENTORY : List InventoryItem :=
  [⟨1, 100⟩, ⟨2, 50⟩, ⟨3, 75⟩, ⟨4, 120⟩, ⟨5, 30⟩, ⟨6, 60⟩,
   ⟨7, 40⟩, ⟨8, 90⟩, ⟨9, 80⟩, ⟨10, 70⟩, ⟨11, 20⟩, ⟨12, 55⟩]

/-- The default inventory in its on-disk JSON form. -/
def DEFAULT_JSON : List Json := DEFAULT_INVENTORY.map encodeItem

/-- Result of load_inventory: the data returned to the caller, the canonical
file content after the call, and whether the default was written to disk. -/
structure LoadResult where
  data : List Json
  file : Json
  wroteDefault : Bool

/-- load_inventory (inventory_api.py lines 53-66).  The argument is the
persisted file as parsed JSON; none stands for a missing, unreadable or
unparsable file (FileNotFoundError and every other exception are swallowed).
The code keeps the parsed data exactly when isinstance(data, list); any other
outcome falls through to writing DEFAULT_INVENTORY and returning a copy of
it.  The function is total: load never fails outward. -/
def load_inventory (file : Option Json) : LoadResult :=
  match file with
  | some (Json.jarr xs) => { data := xs, file := Json.jarr xs, wroteDefault := false }
  | _ => { data := DEFAULT_JSON, file := Json.jarr DEFAULT_JSON, wroteDefault := true }

/-- save_inventory (inventory_api.py lines 69-71): under the lock, atomically
writes the full sequence; the value is the file content written. -/
def save_inventory (data : List InventoryItem) : Json :=
  Json.jarr (data.map encodeItem)

/-- The store state: the in-memory module-level inventory list and the
persisted file (none when no file exists at the canonical path). -/
structure StoreState where
  inv : List InventoryItem
  file : Option Json

/-- Outcome of POST /api/order/{id}. -/
inductive OrderOutcome where
  | success : InventoryItem → OrderOutcome
  | outOfStock : OrderOutcome
  | notFound : OrderOutcome
deriving DecidableEq

/-- HTTP status attached to each outcome by order_product. -/
def order_status : OrderOutcome → Nat
  | OrderOutcome.success _ => 200
  | OrderOutcome.outOfStock => 400
  | OrderOutcome.notFound => 404

/-- Business-metric events of the inventory service, plus the in-flight gauge
operations of its middleware. -/
inductive InvEvent where
  | inflightInc : InvEvent
  | inflightDec : InvEvent
  | requestsTotal (method route status : String) : InvEvent
  | duration (method route status : String) (seconds : ℚ) : InvEvent
  | responseSize (method route status : String) (bytes : Nat) : InvEvent
  | exceptionsTotal (route : String) : InvEvent
  | ordersTotal (productId result : String) : InvEvent
  | invQtySet (productId : String) (qty : Int) : InvEvent
  | aggRefresh : InvEvent
  | stockDecrements (productId : String) : InvEvent
deriving DecidableEq

/-- Decrement the quantity of the first item whose id matches, leaving every
other position untouched; this is what product["quantity"] -= 1 does to the
dict found by next(p for p in inventory if p["id"] == product_id). -/
def decFirst : List InventoryItem → Int → List InventoryItem
  | [], _ => []
  | x :: xs, pid =>
      if x.id == pid then { x with quantity := x.quantity - 1 } :: xs
      else x :: decFirst xs pid

/-- Result of order_product: outcome, new store state, whether
save_inventory ran, and the business-metric events recorded. -/
structure OrderResult where
  outcome : OrderOutcome
  store : StoreState
  wrote : Bool
  events : List InvEvent

/-- order_product (inventory_api.py lines 276-297): find the first item with
the requested id; with positive quantity, decrement it, persist the whole
sequence and record success metrics; with quantity <= 0, record out_of_stock;
with no item, record not_found. -/
def order_product (s : StoreState) (pid : Int) : OrderResult :=
  match s.inv.find? (fun p => p.id == pid) with
  | some p =>
      if 0 < p.quantity then
        let inv2 := decFirst s.inv pid
        { outcome := OrderOutcome.success { id := p.id, quantity := p.quantity - 1 }
          store := { inv := inv2, file := some (save_inventory inv2) }
          wrote := true
          events := [InvEvent.invQtySet (toString pid) (p.quantity - 1),
                     InvEvent.aggRefresh,
                     InvEvent.ordersTotal (toString pid) "success",
                     InvEvent.stockDecrements (toString pid)] }
      else
        { outcome := OrderOutcome.outOfStock, store := s, wrote := false
          events := [InvEvent.ordersTotal (toString pid) "out_of_stock"] }
  | none =>
      { outcome := OrderOutcome.notFound, store := s, wrote := false
        events := [InvEvent.ordersTotal (toString pid) "not_found"] }

/-- Result of GET /api/inventory/{id}. -/
structure GetResult where
  status : Nat
  body : Option InventoryItem
  events : List InvEvent

/-- get_product_inventory (inventory_api.py lines 266-273): return the item
when present; otherwise record an order attempt labelled not_found and
answer 404. -/
def get_product_inventory (inv : List InventoryItem) (pid : Int) : GetResult :=
  match inv.find? (fun p => p.id == pid) with
  | some p => { status := 200, body := some p, events := [] }
  | none =>
      { status := 404, body := none
        events := [InvEvent.ordersTotal (toString pid) "not_found"] }

/-- Per-request context of the inventory middleware: the _inflight_inc flag
attached to the request object. -/
structure ReqCtx where
  inflightInc : Bool
deriving DecidableEq

/-- How a handled request ends: a normal return carrying a status code
(error statuses included), or an unhandled fault. -/
inductive ExitKind where
  | normal : Nat → ExitKind
  | fault : ExitKind
deriving DecidableEq

/-- The inventory service before_request hook (_before, inventory_api.py
lines 179-189): skip /metrics; otherwise increment the in-flight gauge and
set the flag. -/
def inv_before (path : String) : List InvEvent × ReqCtx :=
  if path == "/metrics" then ([], { inflightInc := false })
  else ([InvEvent.inflightInc], { inflightInc := true })

/-- The inventory service after_request hook (_after, inventory_api.py lines
192-233): skip /metrics; label with the matched rule when one exists,
falling back to the raw path; record requests-total, duration and response
size; decrement the in-flight gauge when the flag is set and clear it. -/
def inv_after (path : String) (urlRule : Option String) (method : String)
    (status : Nat) (elapsed : ℚ) (respSize : Nat) (c : ReqCtx) :
    List InvEvent × ReqCtx :=
  if path == "/metrics" then ([], c)
  else
    let route := urlRule.getD path
    let st := toString status
    let evs := [InvEvent.requestsTotal method route st,
                InvEvent.duration method route st elapsed,
                InvEvent.responseSize method route st respSize]
    if c.inflightInc then (evs ++ [InvEvent.inflightDec], { inflightInc := false })
    else (evs, c)

/-- The inventory service teardown_request hook (_teardown, inventory_api.py
lines 236-247): outside /metrics, count the exception when one occurred and
decrement the in-flight gauge when the flag is still set. -/
def inv_teardown (path : String) (urlRule : Option String) (faulted : Bool)
    (c : ReqCtx) : List InvEvent × ReqCtx :=
  if path == "/metrics" then ([], c)
  else
    let evs := if faulted then [InvEvent.exceptionsTotal (urlRule.getD path)] else []
    if c.inflightInc then (evs ++ [InvEvent.inflightDec], { inflightInc := false })
    else (evs, c)

/-- Modelled from the spec: the framework dispatcher that invokes the hooks
is not under src/, and the spec fixes its lifecycle — Before always runs,
After runs only if the handler returned normally (error statuses included),
Teardown runs unconditionally, receiving the fault when one occurred.  This
composes the inventory hooks along that lifecycle and returns every
middleware metric event of the request. -/
def inv_handle (path : String) (urlRule : Option String) (method : String)
    (ex : ExitKind) (elapsed : ℚ) (respSize : Nat) : List InvEvent :=
  let bc := inv_before path
  match ex with
  | ExitKind.normal status =>
      let ac := inv_after path urlRule method status elapsed respSize bc.2
      bc.1 ++ ac.1 ++ (inv_teardown path urlRule false ac.2).1
  | ExitKind.fault =>
      bc.1 ++ (inv_teardown path urlRule true bc.2).1

/-- Metric events of the contact-support-team service. -/
inductive CtEvent where
  | inflightInc (route : String) : CtEvent
  | inflightDec (route : String) : CtEvent
  | requestsTotal (method route status : String) : CtEvent
  | errorsTotal (method route status : String) : CtEvent
  | latency (method route : String) (seconds : ℚ) : CtEvent
  | requestSize (method route : String) (bytes : Nat) : CtEvent
  | responseSize (method route status : String) (bytes : Nat) : CtEvent
  | fastRequests (route le : String) : CtEvent
  | rssSet : CtEvent
deriving DecidableEq

/-- The contact service route label (_label_route, server.py lines 112-113):
the raw request path. -/
def label_route (path : String) : String := path

/-- The contact service before_request hook (_start_timer, server.py lines
116-138): no /metrics exclusion; increment the in-flight gauge labelled by
the raw path, observe the request size when Content-Length is a digit
string, and set the RSS gauge. -/
def start_timer (path method : String) (contentLength : Option Nat) :
    List CtEvent :=
  [CtEvent.inflightInc (label_route path)] ++
  (match contentLength with
   | some n => [CtEvent.requestSize method (label_route path) n]
   | none => []) ++
  [CtEvent.rssSet]

/-- The contact service after_request hook (_record_metrics, server.py lines
141-192): requests-total, latency, errors-total for status >= 400, response
size when Content-Length is a digit string, one fast-requests increment per
threshold the elapsed milliseconds satisfy, then the in-flight decrement. -/
def record_metrics (path method : String) (status : Nat) (elapsed : ℚ)
    (respLen : Option Nat) : List CtEvent :=
  let route := label_route path
  let st := toString status
  [CtEvent.requestsTotal method route st,
   CtEvent.latency method route elapsed] ++
  (if 400 ≤ status then [CtEvent.errorsTotal method route st] else []) ++
  (match respLen with
   | some n => [CtEvent.responseSize method route st n]
   | none => []) ++
  (if elapsed * 1000 ≤ 50 then [CtEvent.fastRequests route "50"] else []) ++
  (if elapsed * 1000 ≤ 200 then [CtEvent.fastRequests route "200"] else []) ++
  [CtEvent.inflightDec route]

/-- Modelled from the spec: the same dispatcher lifecycle as inv_handle.
The contact service registers no teardown hook, so a faulting request runs
only its before hook. -/
def contact_handle (path method : String) (contentLength : Option Nat)
    (ex : ExitKind) (elapsed : ℚ) (respLen : Option Nat) : List CtEvent :=
  start_timer path method contentLength ++
  match ex with
  | ExitKind.normal status => record_metrics path method status elapsed respLen
  | ExitKind.fault => []

/-- Route templates registered in server.py. -/
def contactRoutes : List String :=
  ["/metrics", "/healthz", "/api/contact-message", "/api/contact-submit"]

/-- Route templates registered in inventory_api.py. -/
def inventoryRoutes : List String :=
  ["/metrics", "/healthz", "/api/inventory", "/api/inventory/<int:product_id>",
   "/api/order/<int:product_id>"]

/-- Phase of one request thread inside order_product.  The store lock
(inventory_api.py line 21) is taken only inside save_inventory and
load_inventory, so the find-and-check at lines 278-280, the decrement at
line 281 and the locked save at line 282 are three separately interleavable
atomic steps. -/
inductive ThreadPhase where
  | atCheck : ThreadPhase
  | atDec : ThreadPhase
  | atSave : ThreadPhase
  | finished : OrderOutcome → ThreadPhase
deriving DecidableEq

/-- One concurrent caller of POST /api/order/{pid}. -/
structure OrderThread where
  pid : Int
  phase : ThreadPhase
deriving DecidableEq

/-- The shared state seen by concurrent order calls: the module-level
inventory list, the persisted file and the per-thread control points. -/
structure ConcSys where
  inv : List InventoryItem
  file : Option Json
  threads : List OrderThread

/-- Advance thread i of the system by one atomic step of order_product. -/
def stepThread (s : ConcSys) (i : Nat) : ConcSys :=
  match s.threads.get? i with
  | none => s
  | some t =>
    match t.phase with
    | ThreadPhase.atCheck =>
        match s.inv.find? (fun p => p.id == t.pid) with
        | some p =>
            if 0 < p.quantity then
              { s with threads := s.threads.set i { t with phase := ThreadPhase.atDec } }
            else
              let t2 : OrderThread :=
                { t with phase := ThreadPhase.finished OrderOutcome.outOfStock }
              { s with threads := s.threads.set i t2 }
        | none =>
            let t2 : OrderThread :=
              { t with phase := ThreadPhase.finished OrderOutcome.notFound }
            { s with threads := s.threads.set i t2 }
    | ThreadPhase.atDec =>
        { s with inv := decFirst s.inv t.pid,
                 threads := s.threads.set i { t with phase := ThreadPhase.atSave } }
    | ThreadPhase.atSave =>
        let item := (s.inv.find? (fun p => p.id == t.pid)).getD
          { id := t.pid, quantity := 0 }
        let t2 : OrderThread :=
          { t with phase := ThreadPhase.finished (OrderOutcome.success item) }
        { s with file := some (save_inventory s.inv),
                 threads := s.threads.set i t2 }
    | ThreadPhase.finished _ => s

/-- Run the system under an interleaving schedule: at each tick the named
thread takes its next atomic step. -/
def runSched (s : ConcSys) (sched : List Nat) : ConcSys :=
  sched.foldl stepThread s

/-- Two threads both ordering product 1, which has quantity 1; every
quantity of the initial inventory is nonnegative. -/
def raceStart : ConcSys :=
  { inv := [{ id := 1, quantity := 1 }], file := none,
    threads := [{ pid := 1, phase := ThreadPhase.atCheck },
                { pid := 1, phase := ThreadPhase.atCheck }] }

/-- Number of in-flight gauge increments in an inventory event list. -/
def countIncInv : List InvEvent → Nat
  | [] => 0
  | InvEvent.inflightInc :: es => countIncInv es + 1
  | _ :: es => countIncInv es

/-- Number of in-flight gauge decrements in an inventory event list. -/
def countDecInv : List InvEvent → Nat
  | [] => 0
  | InvEvent.inflightDec :: es => countDecInv es + 1
  | _ :: es => countDecInv es

/-- Number of in-flight gauge increments in a contact event list. -/
def countIncCt : List CtEvent → Nat
  | [] => 0
  | CtEvent.inflightInc _ :: es => countIncCt es + 1
  | _ :: es => countIncCt es

/-- Number of in-flight gauge decrements in a contact event list. -/
def countDecCt : List CtEvent → Nat
  | [] => 0
  | CtEvent.inflightDec _ :: es => countDecCt es + 1
  | _ :: es => countDecCt es

/-- Net effect of a contact event list on the in-flight gauge. -/
def gaugeDeltaCt (es : List CtEvent) : Int :=
  (countIncCt es : Int) - (countDecCt es : Int)

/-- Net effect of an inventory event list on the in-flight gauge. -/
def gaugeDeltaInv (es : List InvEvent) : Int :=
  (countIncInv es : Int) - (countDecInv es : Int)

/-- Number of requests-total increments in a contact event list. -/
def countRequestsTotalCt : List CtEvent → Nat
  | [] => 0
  | CtEvent.requestsTotal _ _ _ :: es => countRequestsTotalCt es + 1
  | _ :: es => countRequestsTotalCt es

/-- Number of fast-requests increments with the given route and threshold
label in a contact event list. -/
def countFast : List CtEvent → String → String → Nat
  | [], _, _ => 0
  | CtEvent.fastRequests r l :: es, route, le =>
      (if r == route && l == le then 1 else 0) + countFast es route le
  | _ :: es, route, le => countFast es route le

/-- Number of orders-total increments with the given product and result
label in an inventory event list. -/
def countOrders : List InvEvent → String → String → Nat
  | [], _, _ => 0
  | InvEvent.ordersTotal p r :: es, pid, res =>
      (if p == pid && r == res then 1 else 0) + countOrders es pid res
  | _ :: es, pid, res => countOrders es pid res

/-- Number of orders-total increments with any label. -/
def countOrdersAny : List InvEvent → Nat
  | [] => 0
  | InvEvent.ordersTotal _ _ :: es => countOrdersAny es + 1
  | _ :: es => countOrdersAny es

/-- The route label carried by an inventory metric event, when it has one
(the in-flight gauge is labelled only by service). -/
def invRouteOf : InvEvent → Option String
  | InvEvent.requestsTotal _ r _ => some r
  | InvEvent.duration _ r _ _ => some r
  | InvEvent.responseSize _ r _ _ => some r
  | InvEvent.exceptionsTotal r => some r
  | _ => none

/-- The route label carried by a contact metric event, when it has one. -/
def ctRouteOf : CtEvent → Option String
  | CtEvent.inflightInc r => some r
  | CtEvent.inflightDec r => some r
  | CtEvent.requestsTotal _ r _ => some r
  | CtEvent.errorsTotal _ r _ => some r
  | CtEvent.latency _ r _ => some r
  | CtEvent.requestSize _ r _ => some r
  | CtEvent.responseSize _ r _ _ => some r
  | CtEvent.fastRequests r _ => some r
  | CtEvent.rssSet => none

/-- Every route-labelled event in the list carries exactly the label r. -/
def invRoutesAll (es : List InvEvent) (r : String) : Bool :=
  es.all (fun e => match invRouteOf e with
    | some l => l == r
    | none => true)

/-- Every route-labelled contact event in the list carries exactly the
label r. -/
def ctRoutesAll (es : List CtEvent) (r : String) : Bool :=
  es.all (fun e => match ctRouteOf e with
    | some l => l == r
    | none => true)

/-- The route labels occurring in a contact event list. -/
def ctRouteLabels (es : List CtEvent) : List String :=
  es.filterMap ctRouteOf

/-- Modelled from the spec: the shape check the specification prescribes for
load — the content must be a sequence and every element must carry both the
id and the quantity fields.  Stated only to compare the specified check with
the weaker one the code performs. -/
def specShapeOk : Json → Bool
  | Json.jarr xs => xs.all (fun j => match j with
      | Json.jobj fs => (jlookup fs "id").isSome && (jlookup fs "quantity").isSome
      | _ => false)
  | _ => false

/-- A bundled inventory-service request, used to state gauge balance over
finite request sequences. -/
structure ReqSpec where
  path : String
  urlRule : Option String
  method : String
  ex : ExitKind
  elapsed : ℚ
  respSize : Nat

/-- All middleware events of one bundled request. -/
def inv_handle_req (r : ReqSpec) : List InvEvent :=
  inv_handle r.path r.urlRule r.method r.ex r.elapsed r.respSize

/-- The in-flight gauge value after a finite sequence of inventory-service
requests has completed, starting from 0. -/
def gaugeAfter (rs : List ReqSpec) : Int :=
  (rs.map (fun r => gaugeDeltaInv (inv_handle_req r))).sum

/-- Parse every element of a JSON list back into an item; none if any
element is not an item object. -/
def decodeItems : List Json → Option (List InventoryItem)
  | [] => some []
  | j :: js =>
      match decodeItem j, decodeItems js with
      | some x, some xs => some (x :: xs)
      | _, _ => none

/-- A demonstration store used by the witnesses: item 1 in stock, item 2
out of stock, no item 3. -/
def demoStore : StoreState :=
  { inv := [{ id := 1, quantity := 1 }, { id := 2, quantity := 0 }], file := none }

theorem decodeItem_encodeItem (x : InventoryItem) :
    decodeItem (encodeItem x) = some x := rfl

theorem decodeItems_map_encodeItem (xs : List InventoryItem) :
    decodeItems (xs.map encodeItem) = some xs := by
  induction xs with
  | nil => rfl
  | cons x xs ih => simp [decodeItems, decodeItem_encodeItem, ih]

theorem decFirst_length (l : List InventoryItem) (pid : Int) :
    (decFirst l pid).length = l.length := by
  induction l with
  | nil => rfl
  | cons x xs ih => by_cases h : x.id = pid <;> simp [decFirst, h, ih]

theorem decFirst_getElem?_ne (l : List InventoryItem) (pid : Int) :
    ∀ (i : Nat) (x : InventoryItem), l[i]? = some x → x.id ≠ pid →
      (decFirst l pid)[i]? = some x := by
  induction l with
  | nil => intro i x h _; simp at h
  | cons y ys ih =>
    intro i x h hx
    by_cases hy : y.id = pid
    · cases i with
      | zero =>
          simp at h
          subst h
          exact absurd hy hx
      | succ n =>
          simp only [List.getElem?_cons_succ] at h
          simp [decFirst, hy, h]
    · cases i with
      | zero =>
          simp at h
          subst h
          simp [decFirst, hy]
      | succ n =>
          simp only [List.getElem?_cons_succ] at h
          have hyb : (y.id == pid) = false := by simpa using hy
          simp only [decFirst, hyb, if_false, Bool.false_eq_true, List.getElem?_cons_succ]
          exact ih n x h hx

theorem find?_decFirst (l : List InventoryItem) (pid : Int) (p : InventoryItem)
    (h : l.find? (fun q => q.id == pid) = some p) :
    (decFirst l pid).find? (fun q => q.id == pid) =
      some { id := p.id, quantity := p.quantity - 1 } := by
  induction l with
  | nil => simp at h
  | cons y ys ih =>
    by_cases hy : y.id = pid
    · have hyb : (y.id == pid) = true := by simpa using hy
      rw [List.find?_cons] at h
      simp only [hyb] at h
      injection h with h
      subst h
      have hdec : decFirst (y :: ys) pid =
          { id := y.id, quantity := y.quantity - 1 } :: ys := by
        simp [decFirst, hy]
      rw [hdec, List.find?_cons]
      simp only [hyb]
    · have hyb : (y.id == pid) = false := by simpa using hy
      rw [List.find?_cons] at h
      simp only [hyb] at h
      have hdec : decFirst (y :: ys) pid = y :: decFirst ys pid := by
        simp [decFirst, hy]
      rw [hdec, List.find?_cons]
      simp only [hyb]
      exact ih h

/-- C1: decrement_order contract — ordering an absent id fails NotFound
(HTTP 404) with no mutation and no write; ordering an id with quantity 0
fails OutOfStock (HTTP 400) with no mutation; ordering an id with quantity
q > 0 decrements that item by exactly 1, persists the full updated sequence,
and returns the updated item (HTTP 200). -/
theorem order_product_contract (s : StoreState) (pid : Int) :
    (s.inv.find? (fun q => q.id == pid) = none →
      (order_product s pid).outcome = OrderOutcome.notFound ∧
      order_status (order_product s pid).outcome = 404 ∧
      (order_product s pid).store = s ∧
      (order_product s pid).wrote = false) ∧
    (∀ p : InventoryItem, s.inv.find? (fun q => q.id == pid) = some p →
      p.quantity = 0 →
      (order_product s pid).outcome = OrderOutcome.outOfStock ∧
      order_status (order_product s pid).outcome = 400 ∧
      (order_product s pid).store = s ∧
      (order_product s pid).wrote = false) ∧
    (∀ p : InventoryItem, s.inv.find? (fun q => q.id == pid) = some p →
      0 < p.quantity →
      (order_product s pid).outcome =
        OrderOutcome.success { id := p.id, quantity := p.quantity - 1 } ∧
      order_status (order_product s pid).outcome = 200 ∧
      (order_product s pid).store.inv = decFirst s.inv pid ∧
      (order_product s pid).store.file = some (save_inventory (decFirst s.inv pid)) ∧
      (order_product s pid).wrote = true) := by
  refine ⟨?_, ?_, ?_⟩
  · intro h
    simp [order_product, h, order_status]
  · intro p h hq
    simp [order_product, h, hq, order_status]
  · intro p h hq
    simp [order_product, h, hq, order_status]

/-- Witness for C1 at the demonstration store: id 3 is absent, id 2 has
quantity 0, id 1 has quantity 1. -/
theorem order_product_contract_witness :
    (order_product demoStore 3).outcome = OrderOutcome.notFound ∧
    (order_product demoStore 2).outcome = OrderOutcome.outOfStock ∧
    (order_product demoStore 1).outcome =
      OrderOutcome.success { id := 1, quantity := 0 } := by
  refine ⟨((order_product_contract demoStore 3).1 (by decide)).1,
          ((order_product_contract demoStore 2).2.1
            { id := 2, quantity := 0 } (by decide) (by decide)).1,
          ?_⟩
  have h := ((order_product_contract demoStore 1).2.2
    { id := 1, quantity := 1 } (by decide) (by decide)).1
  simpa using h

/-- C9: frame property of a successful order — the sequence keeps its
length, every position holding an item with a different id is unchanged,
and the persisted file is exactly the updated in-memory sequence in its
JSON form, so unchanged positions are unchanged on disk as well. -/
theorem order_product_frame (s : StoreState) (pid : Int) (p : InventoryItem)
    (hf : s.inv.find? (fun q => q.id == pid) = some p) (hq : 0 < p.quantity) :
    (order_product s pid).store.inv.length = s.inv.length ∧
    (∀ (i : Nat) (x : InventoryItem), s.inv[i]? = some x → x.id ≠ pid →
      (order_product s pid).store.inv[i]? = some x ∧
      ((order_product s pid).store.inv.map encodeItem)[i]? = some (encodeItem x)) ∧
    (order_product s pid).store.file =
      some (Json.jarr ((order_product s pid).store.inv.map encodeItem)) := by
  have hinv : (order_product s pid).store.inv = decFirst s.inv pid := by
    simp [order_product, hf, hq]
  have hfile : (order_product s pid).store.file =
      some (save_inventory (decFirst s.inv pid)) := by
    simp [order_product, hf, hq]
  refine ⟨?_, ?_, ?_⟩
  · rw [hinv]
    exact decFirst_length s.inv pid
  · intro i x hx hne
    have hmem : (decFirst s.inv pid)[i]? = some x :=
      decFirst_getElem?_ne s.inv pid i x hx hne
    refine ⟨by rw [hinv]; exact hmem, ?_⟩
    rw [hinv, List.getElem?_map, hmem]
    rfl
  · rw [hfile, hinv, save_inventory]

/-- Witness for C9: a successful order of id 1 at the demonstration store
leaves position 1 (id 2) untouched in memory and on disk. -/
theorem order_product_frame_witness :
    (order_product demoStore 1).store.inv.length = demoStore.inv.length ∧
    (order_product demoStore 1).store.inv[1]? =
      some { id := 2, quantity := 0 } := by
  have h := order_product_frame demoStore 1 { id := 1, quantity := 1 }
    (by decide) (by decide)
  exact ⟨h.1, (h.2.1 1 { id := 2, quantity := 0 } (by decide) (by decide)).1⟩

/-- C5: round-trip — saving any inventory sequence and loading it back
yields the same sequence (no default fallback, no rewrite), and after a
successful order of an item with quantity q > 0 the reload from the
persisted file parses back to the updated sequence, in which that item has
quantity q - 1. -/
theorem save_load_roundtrip (xs : List InventoryItem) (s : StoreState)
    (pid : Int) (p : InventoryItem)
    (hf : s.inv.find? (fun q => q.id == pid) = some p) (hq : 0 < p.quantity) :
    ((load_inventory (some (save_inventory xs))).data = xs.map encodeItem ∧
     decodeItems (load_inventory (some (save_inventory xs))).data = some xs ∧
     (load_inventory (some (save_inventory xs))).wroteDefault = false) ∧
    (decodeItems (load_inventory (order_product s pid).store.file).data =
       some (decFirst s.inv pid) ∧
     (decFirst s.inv pid).find? (fun q => q.id == pid) =
       some { id := p.id, quantity := p.quantity - 1 }) := by
  have hfile : (order_product s pid).store.file =
      some (save_inventory (decFirst s.inv pid)) := by
    simp [order_product, hf, hq]
  refine ⟨⟨rfl, ?_, rfl⟩, ⟨?_, find?_decFirst s.inv pid p hf⟩⟩
  · show decodeItems (xs.map encodeItem) = some xs
    exact decodeItems_map_encodeItem xs
  · rw [hfile]
    show decodeItems ((decFirst s.inv pid).map encodeItem) = some (decFirst s.inv pid)
    exact decodeItems_map_encodeItem (decFirst s.inv pid)

/-- Witness for C5 at the demonstration store: saving and loading the
default inventory round-trips, and ordering id 1 persists quantity 0 for
id 1. -/
theorem save_load_roundtrip_witness :
    decodeItems (load_inventory (some (save_inventory DEFAULT_INVENTORY))).data =
      some DEFAULT_INVENTORY ∧
    (decFirst demoStore.inv 1).find? (fun q => q.id == 1) =
      some { id := 1, quantity := 0 } := by
  have h := save_load_roundtrip DEFAULT_INVENTORY demoStore 1
    { id := 1, quantity := 1 } (by decide) (by decide)
  exact ⟨h.1.2.1, by simpa using h.2.2⟩

/-- C4 counterexample: a persisted JSON array whose single
element is an empty object carrying neither the id nor the quantity field fails the
shape check the claim prescribes, yet load returns the parsed content
unchanged and writes nothing: isinstance(data, list) is the only check the
code performs, so the claimed fallback does not happen. -/
theorem load_shape_check_counterexample :
    specShapeOk (Json.jarr [Json.jobj []]) = false ∧
    (load_inventory (some (Json.jarr [Json.jobj []]))).data = [Json.jobj []] ∧
    (load_inventory (some (Json.jarr [Json.jobj []]))).wroteDefault = false ∧
    (load_inventory (some (Json.jarr [Json.jobj []]))).data ≠ DEFAULT_JSON := by
  refine ⟨rfl, rfl, rfl, ?_⟩
  intro h
  have h2 := congrArg List.length h
  simp [load_inventory, DEFAULT_JSON, DEFAULT_INVENTORY] at h2

/-- C4 amended: load returns the fixed default inventory and persists it
before returning exactly when the file is missing, unreadable, or its
content is not a JSON array; any array content — whether or not its
elements carry the id and quantity fields — is returned as parsed with no
write.  Load is total, so it never fails outward. -/
theorem load_inventory_spec (file : Option Json) :
    (∀ xs : List Json, file = some (Json.jarr xs) →
      load_inventory file =
        { data := xs, file := Json.jarr xs, wroteDefault := false }) ∧
    ((∀ xs : List Json, file ≠ some (Json.jarr xs)) →
      load_inventory file =
        { data := DEFAULT_JSON, file := Json.jarr DEFAULT_JSON,
          wroteDefault := true }) := by
  constructor
  · intro xs h
    subst h
    rfl
  · intro h
    match file with
    | none => rfl
    | some Json.jnull => rfl
    | some (Json.jbool b) => rfl
    | some (Json.jnum n) => rfl
    | some (Json.jstr s) => rfl
    | some (Json.jobj fs) => rfl
    | some (Json.jarr xs) => exact absurd rfl (h xs)

/-- Witness for C4 as amended: a missing file yields the persisted default;
an array file is returned as parsed. -/
theorem load_inventory_spec_witness :
    load_inventory none =
      { data := DEFAULT_JSON, file := Json.jarr DEFAULT_JSON,
        wroteDefault := true } ∧
    load_inventory (some (Json.jarr [])) =
      { data := [], file := Json.jarr [], wroteDefault := false } := by
  exact ⟨(load_inventory_spec none).2 (fun xs h => Option.noConfusion h),
         (load_inventory_spec (some (Json.jarr []))).1 [] rfl⟩

/-- C10: GET /api/inventory/{id} with an absent id answers 404 and
increments the orders-total counter for that product with result not_found
exactly once — even though no order was attempted — while a present id is
returned with no order-counter change. -/
theorem get_product_inventory_spec (inv : List InventoryItem) (pid : Int) :
    (inv.find? (fun q => q.id == pid) = none →
      (get_product_inventory inv pid).status = 404 ∧
      (get_product_inventory inv pid).body = none ∧
      countOrders (get_product_inventory inv pid).events
        (toString pid) "not_found" = 1 ∧
      countOrdersAny (get_product_inventory inv pid).events = 1) ∧
    (∀ p : InventoryItem, inv.find? (fun q => q.id == pid) = some p →
      (get_product_inventory inv pid).status = 200 ∧
      (get_product_inventory inv pid).body = some p ∧
      countOrdersAny (get_product_inventory inv pid).events = 0) := by
  constructor
  · intro h
    simp [get_product_inventory, h, countOrders, countOrdersAny]
  · intro p h
    simp [get_product_inventory, h, countOrdersAny]

/-- Witness for C10 at the demonstration inventory: id 3 is absent, id 2 is
present. -/
theorem get_product_inventory_spec_witness :
    (get_product_inventory demoStore.inv 3).status = 404 ∧
    countOrders (get_product_inventory demoStore.inv 3).events "3" "not_found" = 1 ∧
    (get_product_inventory demoStore.inv 2).status = 200 ∧
    countOrdersAny (get_product_inventory demoStore.inv 2).events = 0 := by
  have h1 := (get_product_inventory_spec demoStore.inv 3).1 (by decide)
  have h2 := (get_product_inventory_spec demoStore.inv 2).2
    { id := 2, quantity := 0 } (by decide)
  exact ⟨h1.1, h1.2.2.1, h2.1, h2.2.2⟩

/-- C2: the store lock guards only save_inventory and load_inventory, so
the find-and-check and the decrement of order_product interleave.  From the
all-nonnegative initial state with item 1 at quantity 1 and two concurrent
orders for id 1, the schedule check-check-decrement-decrement drives the
quantity to -1: the never-negative claim fails on the code. -/
theorem order_race_negative_quantity :
    raceStart.inv.all (fun it => decide (0 ≤ it.quantity)) = true ∧
    raceStart.threads.all (fun t => t.phase == ThreadPhase.atCheck) = true ∧
    (runSched raceStart [0, 1, 0, 1]).inv = [{ id := 1, quantity := -1 }] ∧
    (runSched raceStart [0, 1, 0, 1]).inv.all
      (fun it => decide (0 ≤ it.quantity)) = false := by
  decide

/-- C3 counterexample: the contact-support middleware registers no teardown
hook, so a request that ends in an unhandled fault — whose after hook,
following the spec's lifecycle, does not run — increments the in-flight
gauge once and never decrements it, leaving the gauge at 1 instead of 0
after the request completes. -/
theorem contact_fault_leaks_inflight :
    countIncCt (contact_handle "/api/contact-message" "GET" none
      ExitKind.fault 0 none) = 1 ∧
    countDecCt (contact_handle "/api/contact-message" "GET" none
      ExitKind.fault 0 none) = 0 ∧
    gaugeDeltaCt (contact_handle "/api/contact-message" "GET" none
      ExitKind.fault 0 none) = 1 := by
  decide

/-- Every inventory-service request leaves the in-flight gauge where it
found it: /metrics requests touch it zero times, all others exactly once in
each direction, on every exit path. -/
theorem gaugeDeltaInv_inv_handle (path : String) (urlRule : Option String)
    (method : String) (ex : ExitKind) (elapsed : ℚ) (respSize : Nat) :
    gaugeDeltaInv (inv_handle path urlRule method ex elapsed respSize) = 0 := by
  by_cases hm : path = "/metrics" <;> cases ex <;>
    simp [gaugeDeltaInv, inv_handle, inv_before, inv_after, inv_teardown, hm,
      countIncInv, countDecInv]

/-- C3 amended: for the inventory-service middleware the invariant holds in
full — every request with a path other than /metrics increments and
decrements the in-flight gauge exactly once on every exit path (normal
return, error status, unhandled fault), and the gauge is exactly 0 after
any finite sequence of completed requests.  For the contact-support
middleware the balance holds for every request that exits normally (error
statuses included); its middleware has no teardown phase, so the balance on
fault exits fails (see the counterexample). -/
theorem inflight_balance (path : String) (urlRule : Option String)
    (method : String) (ex : ExitKind) (elapsed : ℚ) (respSize : Nat)
    (h : path ≠ "/metrics") :
    (countIncInv (inv_handle path urlRule method ex elapsed respSize) = 1 ∧
     countDecInv (inv_handle path urlRule method ex elapsed respSize) = 1) ∧
    (∀ rs : List ReqSpec, gaugeAfter rs = 0) ∧
    (∀ (cpath cmethod : String) (cl respLen : Option Nat) (status : Nat),
      countIncCt (contact_handle cpath cmethod cl (ExitKind.normal status)
        elapsed respLen) = 1 ∧
      countDecCt (contact_handle cpath cmethod cl (ExitKind.normal status)
        elapsed respLen) = 1) := by
  refine ⟨?_, ?_, ?_⟩
  · cases ex <;>
      simp [inv_handle, inv_before, inv_after, inv_teardown, h,
        countIncInv, countDecInv]
  · intro rs
    induction rs with
    | nil => rfl
    | cons r rs ih =>
        simp [gaugeAfter] at ih ⊢
        rw [inv_handle_req, gaugeDeltaInv_inv_handle]
        simpa using ih
  · intro cpath cmethod cl respLen status
    cases cl <;> cases respLen <;>
      simp only [contact_handle, start_timer, record_metrics, label_route] <;>
      split_ifs <;>
      simp [countIncCt, countDecCt]

/-- Witness for C3 as amended: a normal 200 GET /healthz request through
the inventory middleware increments and decrements the gauge exactly once. -/
theorem inflight_balance_witness :
    countIncInv (inv_handle "/healthz" (some "/healthz") "GET"
      (ExitKind.normal 200) 0 17) = 1 ∧
    countDecInv (inv_handle "/healthz" (some "/healthz") "GET"
      (ExitKind.normal 200) 0 17) = 1 := by
  exact (inflight_balance "/healthz" (some "/healthz") "GET"
    (ExitKind.normal 200) 0 17 (by decide)).1

/-- C7 amended: the inventory-service middleware records nothing at all for
a request whose path is /metrics, on any exit path; the contact-support
middleware instruments /metrics like any other request (see the
counterexample). -/
theorem metrics_path_not_instrumented (urlRule : Option String)
    (method : String) (ex : ExitKind) (elapsed : ℚ) (respSize : Nat) :
    inv_handle "/metrics" urlRule method ex elapsed respSize = [] := by
  cases ex <;> simp [inv_handle, inv_before, inv_after, inv_teardown]

/-- C7 counterexample: a GET /metrics request through the contact-support
middleware is fully instrumented — the in-flight gauge is incremented and
decremented and a requests-total sample is recorded for it. -/
theorem contact_metrics_instrumented :
    countIncCt (contact_handle "/metrics" "GET" none (ExitKind.normal 200)
      0 none) = 1 ∧
    countDecCt (contact_handle "/metrics" "GET" none (ExitKind.normal 200)
      0 none) = 1 ∧
    countRequestsTotalCt (contact_handle "/metrics" "GET" none
      (ExitKind.normal 200) 0 none) = 1 := by
  norm_num [contact_handle, start_timer, record_metrics, label_route,
    countIncCt, countDecCt, countRequestsTotalCt]

/-- C6 counterexample: a contact-service request to the unregistered path
/nope is instrumented — its requests-total sample is recorded — and every
route label it records is the raw path /nope, which is not a registered
route template; the route label does not bound cardinality to templates. -/
theorem route_label_raw_path_counterexample :
    countRequestsTotalCt (contact_handle "/nope" "GET" none
      (ExitKind.normal 404) 0 none) = 1 ∧
    "/nope" ∈ ctRouteLabels (contact_handle "/nope" "GET" none
      (ExitKind.normal 404) 0 none) ∧
    ctRoutesAll (contact_handle "/nope" "GET" none (ExitKind.normal 404)
      0 none) "/nope" = true ∧
    "/nope" ∉ contactRoutes := by
  refine ⟨?_, ?_, ?_, by decide⟩ <;>
    norm_num [contact_handle, start_timer, record_metrics, label_route,
      countRequestsTotalCt, ctRouteLabels, ctRouteOf, ctRoutesAll,
      contactRoutes]

/-- C6 amended: when an inventory-service request matched a registered rule
the middleware labels every route-labelled metric with that rule's
template; when no rule matched it falls back to the raw path; the
contact-support middleware always labels with the raw request path. -/
theorem route_label_policy (r path method : String) (ex : ExitKind)
    (elapsed : ℚ) (respSize : Nat) :
    invRoutesAll (inv_handle path (some r) method ex elapsed respSize) r = true ∧
    invRoutesAll (inv_handle path none method ex elapsed respSize) path = true ∧
    (∀ cl respLen : Option Nat,
      ctRoutesAll (contact_handle path method cl ex elapsed respLen) path
        = true) := by
  refine ⟨?_, ?_, ?_⟩
  · by_cases hm : path = "/metrics" <;> cases ex <;>
      simp [inv_handle, inv_before, inv_after, inv_teardown, hm,
        invRoutesAll, invRouteOf]
  · by_cases hm : path = "/metrics" <;> cases ex <;>
      simp [inv_handle, inv_before, inv_after, inv_teardown, hm,
        invRoutesAll, invRouteOf]
  · intro cl respLen
    cases cl <;> cases respLen <;> cases ex <;>
      simp only [contact_handle, start_timer, record_metrics, label_route] <;>
      (try split_ifs) <;>
      simp [ctRoutesAll, ctRouteOf]

/-- C8: for a request completing normally the contact middleware increments
the fast-requests counter with threshold label 50 exactly when the elapsed
milliseconds are at most 50, and the one with label 200 exactly when they
are at most 200; the two checks are independent. -/
theorem fast_requests_thresholds (path method : String) (status : Nat)
    (elapsed : ℚ) (respLen : Option Nat) :
    countFast (record_metrics path method status elapsed respLen)
        (label_route path) "50" =
      (if elapsed * 1000 ≤ 50 then 1 else 0) ∧
    countFast (record_metrics path method status elapsed respLen)
        (label_route path) "200" =
      (if elapsed * 1000 ≤ 200 then 1 else 0) := by
  cases respLen <;>
    simp only [record_metrics, label_route] <;>
    split_ifs <;>
    simp [countFast]
